import Mathlib

/-!
Verification of the CondaRTS real-time-strategy simulation core.

This file shallowly embeds the parts of the Python source that the verified
properties talk about, and proves (or refutes) each property against that
embedding.

Modelling conventions:
* Continuous quantities (positions, timers) are rationals; currency, health
  and resource counters are integers, exactly as the Python `int` values.
  Pygame stores rect coordinates as pixels; that final per-frame pixel
  rounding is a rendering detail and is abstracted away — coordinates are
  kept exact.
* The source compares Euclidean distances computed with `math.sqrt` against
  nonnegative constants (`sqrt(dx**2+dy**2) < 30` and the like).  Since
  `Real.sqrt` is strictly monotone on nonnegative reals, every such
  comparison is embedded as the equivalent comparison of squares
  (`dx^2+dy^2 < 900`), which keeps the definitions computable.  Places where
  the source uses the *value* of a square root (movement steps) are embedded
  over `ℝ` with `Real.sqrt` itself, in a dedicated section.
* Weak references to game objects (`target_field`) are modelled as indices
  into the owning list; Python `kill()` (removal from all sprite groups) is
  modelled as an `alive := false` flag.
* `fallible` paths (the source's `raise TypeError` guards) are modelled by
  returning `none`.
-/

namespace CondaRTS

/-- A 2-D point with exact rational coordinates (a pygame rect center). -/
structure Pt where
  x : ℚ
  y : ℚ
  deriving DecidableEq, Repr, Inhabited

/-- Squared Euclidean distance.  The source computes
`math.sqrt((ax-bx)**2 + (ay-by)**2)` and only ever compares it; comparing
the square against the squared bound is equivalent. -/
def sqDist (a b : Pt) : ℚ :=
  (a.x - b.x) ^ 2 + (a.y - b.y) ^ 2

/-! ## Harvester economic state machine (src/src/harvester.py)

`Harvester.update` runs, after the inherited movement/cooldown update:
1. a self-defense block (lines 51-66): melee the closest live enemy
   `Infantry` within `attack_range` when the cooldown is zero;
2. the three-state economy machine (lines 68-129).
The two blocks are embedded as two functions; `Harvester.update` is their
sequential composition after `GameObject.update` (which only moves the rect
and decrements the cooldown). -/

/-- States of the harvester cycle (`self.state` strings in the source). -/
inductive HarvState where
  | movingToField
  | harvesting
  | returning
  deriving DecidableEq, Repr, Inhabited

/-- An iron field as the harvester sees it: its rect center and its
`resources` counter (src/src/iron_field.py). -/
structure IronFieldS where
  pos : Pt
  resources : ℤ
  deriving DecidableEq, Repr, Inhabited

/-- The mutable harvester state touched by `Harvester.update`, plus the
owning headquarters' position (`self.hq.rect.center`, immobile) and iron
stockpile (`self.hq.iron`). -/
structure HarvesterS where
  pos : Pt
  capacity : ℤ
  iron : ℤ
  state : HarvState
  targetField : Option ℕ
  harvestTime : ℤ
  target : Option Pt
  hqPos : Pt
  deriving DecidableEq, Repr, Inhabited

/-- Fields of `Harvester.__init__` relevant to the economy machine:
`capacity = 100`, `iron = 0`, `state = "moving_to_field"`,
`target_field = None`, `harvest_time = 40`. -/
def harvesterSpawn (pos hqPos : Pt) : HarvesterS :=
  { pos := pos
    capacity := 100
    iron := 0
    state := .movingToField
    targetField := none
    harvestTime := 40
    target := none
    hqPos := hqPos }

/-- Index of the first element of `keys` attaining the minimum.  Python's
`min` returns the first minimal element of its argument, and `sqrt` is
strictly monotone, so running this on squared distances picks the same
element as the source's `min(..., key=lambda f: sqrt(...))`. -/
def firstArgmin : List ℚ → Option ℕ
  | [] => none
  | k :: ks =>
    match firstArgmin ks with
    | none => some 0
    | some j =>
      -- index 0 wins ties because Python's min keeps the earliest element
      if ks.getD j 0 < k then some (j + 1) else some 0

/-- Indices of fields with `resources >= 1000` (the "rich" filter). -/
def richFieldIdxs (fields : List IronFieldS) : List ℕ :=
  (List.range fields.length).filter fun i => 1000 ≤ (fields.getD i default).resources

/-- The field chosen by the `moving_to_field` re-targeting block
(lines 69-87): nearest field with `resources >= 1000` if any, else nearest
field overall (`default=None` when there are no fields at all). -/
def pickField (pos : Pt) (fields : List IronFieldS) : Option ℕ :=
  let rich := richFieldIdxs fields
  if rich ≠ [] then
    -- nearest among the rich ones; recover its index in the full list
    match firstArgmin (rich.map fun i => sqDist pos (fields.getD i default).pos) with
    | none => none
    | some k => some (rich.getD k 0)
  else
    firstArgmin (fields.map fun f => sqDist pos f.pos)

/-- An enemy unit as seen by the harvester self-defense block. -/
structure EnemyS where
  pos : Pt
  health : ℤ
  isInfantry : Bool
  alive : Bool
  deriving DecidableEq, Repr, Inhabited

/-- The harvester self-defense block (src/src/harvester.py lines 51-66):
when `cooldown_timer == 0`, melee the closest live enemy `Infantry` strictly
within `attack_range` (50), for `attack_damage` (10); reset the cooldown to
`attack_cooldown` (30) only if a target was struck.  Returns the updated
enemies and cooldown. -/
def harvesterCombatStep (hvPos : Pt) (cooldown : ℤ) (enemies : List EnemyS) :
    List EnemyS × ℤ :=
  if cooldown = 0 then
    let hit? := firstArgmin
      ((enemies.filter fun e => 0 < e.health ∧ e.isInfantry
          ∧ sqDist hvPos e.pos < 2500).map fun e => sqDist hvPos e.pos)
    match hit? with
    | none => (enemies, cooldown)
    | some k =>
      let victims := enemies.filter fun e => 0 < e.health ∧ e.isInfantry
          ∧ sqDist hvPos e.pos < 2500
      let v := victims.getD k default
      -- apply 10 damage to `v` in place; kill() when health drops to <= 0
      (enemies.map fun e =>
        if e = v then
          { e with health := e.health - 10,
                   alive := if e.health - 10 ≤ 0 then false else e.alive }
        else e,
       30)
  else (enemies, cooldown)

/-- One run of the economy state machine (src/src/harvester.py lines
68-129).  Returns the updated harvester, the updated field list and the
updated headquarters stockpile, or `none` where the source raises
`TypeError` ("temporary handling" guards). -/
def harvesterEconomyStep (hv : HarvesterS) (fields : List IronFieldS)
    (hqIron : ℤ) : Option (HarvesterS × List IronFieldS × ℤ) :=
  match hv.state with
  | .movingToField =>
    -- re-target if no field or the current one is depleted
    let tf :=
      match hv.targetField with
      | none => pickField hv.pos fields
      | some i =>
        if (fields.getD i default).resources ≤ 0 then pickField hv.pos fields
        else some i
    match tf with
    | none => some ({ hv with targetField := none }, fields, hqIron)
    | some i =>
      let fpos := (fields.getD i default).pos
      if sqDist hv.pos fpos < 900 then
        -- arrival: `< 30` on the sqrt distance
        some ({ hv with targetField := some i, target := none,
                        state := .harvesting, harvestTime := 40 },
              fields, hqIron)
      else
        some ({ hv with targetField := some i, target := some fpos },
              fields, hqIron)
  | .harvesting =>
    if 0 < hv.harvestTime then
      some ({ hv with harvestTime := hv.harvestTime - 1 }, fields, hqIron)
    else
      match hv.targetField with
      | none => none  -- raise TypeError("No target field")
      | some i =>
        let f := fields.getD i default
        let harvested := min f.resources hv.capacity
        some ({ hv with iron := hv.iron + harvested,
                        state := .returning, target := some hv.hqPos },
              fields.set i { f with resources := f.resources - harvested },
              hqIron)
  | .returning =>
    match hv.target with
    | none => none  -- raise TypeError("No target field")
    | some t =>
      if sqDist hv.pos t < 900 then
        -- arrival at the headquarters: deposit all cargo
        some ({ hv with iron := 0, state := .movingToField, target := none },
              fields, hqIron + hv.iron)
      else
        some (hv, fields, hqIron)

/-! ## Projectile impact pass (src/src/projectile.py, src/src/game.py)

`Game.handle_projectiles` (game.py lines 175-203) applies projectile damage:
for each projectile it builds the list of live enemy units followed by live
enemy buildings and, at the first one whose rect collides with the
projectile's rect, applies `damage`, sets `under_attack`, kills the
projectile, kills the victim when its health drops to `<= 0`, and breaks.
`Projectile.update` (projectile.py lines 33-78) only flies the projectile
and self-destructs it; it never writes to any game object (embedded in the
real-valued section below). -/

/-- An axis-aligned pygame rect: top-left corner and size. -/
structure RectQ where
  x : ℚ
  y : ℚ
  w : ℚ
  h : ℚ
  deriving DecidableEq, Repr, Inhabited

/-- The center of a rect (`rect.center`). -/
def RectQ.center (r : RectQ) : Pt :=
  ⟨r.x + r.w / 2, r.y + r.h / 2⟩

/-- Pygame's `Rect.colliderect`: strict overlap on both axes (rects that
merely touch do not collide). -/
def collideRect (a b : RectQ) : Prop :=
  a.x < b.x + b.w ∧ a.y < b.y + b.h ∧ b.x < a.x + a.w ∧ b.y < a.y + a.h

instance (a b : RectQ) : Decidable (collideRect a b) := by
  unfold collideRect; infer_instance

/-- The two in-game teams. -/
inductive TeamId where
  | gdi
  | nod
  deriving DecidableEq, Repr, Inhabited

/-- A unit or building as touched by the projectile pass. -/
structure Ent where
  rect : RectQ
  health : ℤ
  team : TeamId
  underAttack : Bool
  alive : Bool
  deriving DecidableEq, Repr, Inhabited

/-- Projectile state used by the impact pass. -/
structure Proj where
  rect : RectQ
  damage : ℤ
  team : TeamId
  alive : Bool
  deriving DecidableEq, Repr, Inhabited

/-- The enemy filter `[u for u in self.units if u.team != projectile.team]`:
`Game.units`/`Game.buildings` keep only `health > 0` members. -/
def liveEnemies (team : TeamId) (objs : List Ent) : List Ent :=
  objs.filter fun o => 0 < o.health ∧ o.team ≠ team

/-- The inner loop of `Game.handle_projectiles` for one projectile over the
candidate list `enemy_units + enemy_buildings`: damage the first candidate
whose rect collides with the projectile, set its `under_attack`, kill it
when its health drops to `<= 0`, and stop (`break`).  Returns the updated
candidates and whether a hit consumed the projectile (`projectile.kill()`).
-/
def projHitScan (p : Proj) : List Ent → List Ent × Bool
  | [] => ([], false)
  | e :: rest =>
    if collideRect p.rect e.rect then
      let e1 : Ent :=
        { e with
          health := e.health - p.damage
          underAttack := true
          alive := if e.health - p.damage ≤ 0 then false else e.alive }
      (e1 :: rest, true)
    else
      let (rest1, hit) := projHitScan p rest
      (e :: rest1, hit)

/-- Embeds `Game.handle_projectiles` restricted to one projectile: build the
candidate list from all units then all buildings and run the scan; the
projectile survives only if nothing collided. -/
def handleProjectile (p : Proj) (units buildings : List Ent) :
    Proj × (List Ent × Bool) :=
  let scan := projHitScan p (liveEnemies p.team units ++ liveEnemies p.team buildings)
  ({ p with alive := p.alive ∧ ¬ scan.2 }, scan)

/-! ## Production queue bound (src/src/player_interface.py, src/src/ai.py)

Entity classes that can sit in a production queue, with their `COST`
constants (src/src class attributes; `Turret` from src/src/turret.py). -/

/-- The entity classes that production deals in. -/
inductive GKind where
  | infantry
  | tank
  | harvester
  | turret
  | powerPlant
  | barracks
  | warFactory
  | headquarters
  deriving DecidableEq, Repr, Inhabited

/-- The `COST` class attributes. -/
def GKind.cost : GKind → ℤ
  | .infantry => 100
  | .tank => 500
  | .harvester => 800
  | .turret => 600
  | .powerPlant => 300
  | .barracks => 500
  | .warFactory => 1000
  | .headquarters => 2000

/-- The test `issubclass(cls, Building)` for the queue tokens. -/
def GKind.isBuilding : GKind → Bool
  | .infantry | .tank | .harvester => false
  | _ => true

/-- Embeds `AI._buy_object` (src/src/ai.py lines 214-220): append to the owning
headquarters' production queue and deduct the cost — with no check on the
queue's current length. -/
def aiBuyObject (queue : List GKind) (teamIron : ℤ) (cls : GKind) :
    List GKind × ℤ :=
  (queue ++ [cls], teamIron - cls.cost)

/-- The buy-button path of `PlayerInterface.handle_click`
(src/src/player_interface.py lines 331-343): refuse outright when the queue
already holds `MAX_PRODUCTION_QUEUE_LENGTH = 5` items; otherwise, for a
clicked button whose class is affordable and whose requirement callback
passes, enqueue it and deduct the cost.  `reqOk` stands for
`rect.collidepoint(...) and req_fn()` of the clicked button. -/
def playerBuyClick (queue : List GKind) (teamIron : ℤ) (cls : GKind)
    (reqOk : Bool) : List GKind × ℤ :=
  if 5 ≤ queue.length then
    (queue, teamIron)
  else if cls.cost ≤ teamIron ∧ reqOk then
    (queue ++ [cls], teamIron - cls.cost)
  else
    (queue, teamIron)

/-! ## Headquarters production (src/src/game_objects/buildings/headquarters.py)

`Headquarters.update` recomputes the power balance, then runs the
production-timer machine (lines 88-161).  The friendly unit/building inputs
are the live (`health > 0`) team-filtered views `Game.team_units` /
`Game.team_buildings`. -/

/-- The `POWER_USAGE` class attributes (0 where no override exists). -/
def GKind.powerUsage : GKind → ℤ
  | .infantry => 5
  | .tank => 15
  | .harvester => 20
  | .turret => 25
  | .powerPlant => 0
  | .barracks => 25
  | .warFactory => 35
  | .headquarters => 0

/-- A friendly building as `Headquarters.update` sees it.  `isTheHq` marks
the updating headquarters itself (the source's identity test `b != self`).
-/
structure BuildingS where
  kind : GKind
  rect : RectQ
  health : ℤ
  isTheHq : Bool
  deriving DecidableEq, Repr, Inhabited

/-- Embeds `Headquarters._power_output`: `BASE_POWER (300)` plus `POWER_OUTPUT
(100)` for each live friendly power plant. -/
def powerOutput (friendlyBuildings : List BuildingS) : ℤ :=
  300 + 100 * ((friendlyBuildings.filter
    fun b => b.kind = .powerPlant ∧ 0 < b.health).length : ℤ)

/-- Embeds `Headquarters._power_usage`: friendly units' usage plus friendly
buildings' usage, the headquarters itself excluded. -/
def powerUsageSum (friendlyUnits : List GKind)
    (friendlyBuildings : List BuildingS) : ℤ :=
  (friendlyUnits.map GKind.powerUsage).sum
    + ((friendlyBuildings.filter fun b => ¬ b.isTheHq).map
        fun b => b.kind.powerUsage).sum

/-- Embeds `Game.get_production_time` (src/src/game.py lines 79-93):
`BASE_PRODUCTION_TIME (180)` scaled by `0.9` per live friendly `Barracks`
for `Infantry`, per live friendly `WarFactory` for `Tank`/`Harvester`. -/
def getProductionTime (cls : GKind) (friendlyBuildings : List BuildingS) : ℚ :=
  if cls = .infantry then
    180 * (9 / 10 : ℚ) ^ (friendlyBuildings.filter fun b => b.kind = .barracks).length
  else if cls = .tank ∨ cls = .harvester then
    180 * (9 / 10 : ℚ) ^ (friendlyBuildings.filter fun b => b.kind = .warFactory).length
  else
    180

/-- The producer building type a mobile unit class spawns from:
`Barracks` for `Infantry`, `WarFactory` for `Tank`/`Harvester`; `none`
means the headquarters spawns it from itself. -/
def producerKind : GKind → Option GKind
  | .infantry => some .barracks
  | .tank | .harvester => some .warFactory
  | _ => none

/-- The mutable headquarters production state. -/
structure HQState where
  rect : RectQ
  queue : List GKind
  timer : ℚ
  pendingClass : Option GKind
  pendingPos : Option Pt
  deriving DecidableEq, Repr, Inhabited

/-- Result of one production step: the new state plus any spawned unit
(class and the producer building it spawned beside). -/
structure HQStepResult where
  hq : HQState
  spawned : List (GKind × Pt)
  deriving DecidableEq, Repr, Inhabited

/-- Embeds `calculate_formation_positions` (src/src/geometry.py lines 71-98) at
`direction=0`, slot `i` (row-major 5-column grid, 20 spacing): the offset
added to the center. -/
def formationOffset (i : ℕ) : Pt :=
  ⟨((i % 5 : ℕ) : ℚ) * 20 - 40, ((i / 5 : ℕ) : ℚ) * 20 - 30⟩

/-- Spawn position beside a producer building:
`(spawn_building.rect.right + 20, spawn_building.position.y)`. -/
def spawnPos (b : RectQ) : Pt :=
  ⟨b.x + b.w + 20, (b.center).y⟩

/-- The production-machine portion of `Headquarters.update` (lines 88-161):
arm the timer when the queue is non-empty, the timer is exactly 0 (Python
truthiness of a float) and power suffices; tick the timer down by 1 when
powered, else by 0.5; on reaching `<= 0`, pop the head of queue: a
building class becomes the pending building, a unit class spawns beside the
nearest live producer of the required type — and when no such producer
exists the method returns early: the popped item is gone, nothing spawns,
and the timer is left at its expired value.  After a normal pop, the timer
re-arms for the new head of queue if one exists and power suffices. -/
def hqProductionStep (hq : HQState) (friendlyUnits : List GKind)
    (friendlyBuildings : List BuildingS) : HQStepResult :=
  let powered := powerUsageSum friendlyUnits friendlyBuildings
      ≤ powerOutput friendlyBuildings
  let timer0 :=
    match hq.queue with
    | [] => hq.timer
    | cls :: _ => if hq.timer = 0 ∧ powered then
        getProductionTime cls friendlyBuildings
      else hq.timer
  match hq.queue with
  | [] => { hq := { hq with timer := timer0 }, spawned := [] }
  | cls :: rest =>
    let timer1 := timer0 - (if powered then 1 else 1 / 2)
    if 0 < timer1 then
      { hq := { hq with timer := timer1 }, spawned := [] }
    else if cls.isBuilding then
      -- a finished building waits for placement; then re-arm the timer
      { hq :=
          { hq with
            queue := rest
            pendingClass := some cls
            pendingPos := none
            timer :=
              match rest with
              | [] => 0
              | next :: _ =>
                if powered then getProductionTime next friendlyBuildings else 0 }
        spawned := [] }
    else
      -- a finished unit spawns beside the nearest live producer
      let producers :=
        match producerKind cls with
        | some pk => friendlyBuildings.filter fun b => b.kind = pk
        | none => [⟨.headquarters, hq.rect, 1, true⟩]  -- spawn from self
      if producers = [] then
        -- silent early return: item lost, no spawn, timer left expired
        { hq := { hq with queue := rest, timer := timer1 }, spawned := [] }
      else
        let producer :=
          match firstArgmin (producers.map
              fun b => sqDist hq.rect.center b.rect.center) with
          | some j => producers.getD j default
          | none => default
        let base := spawnPos producer.rect
        let p0 := formationOffset 0
        { hq :=
            { hq with
              queue := rest
              timer :=
                match rest with
                | [] => 0
                | next :: _ =>
                  if powered then getProductionTime next friendlyBuildings else 0 }
          spawned := [(cls, ⟨base.x + p0.x, base.y + p0.y⟩)] }

/-! ## AI purchasing (src/src/ai.py)

`AI.update` runs `_determine_state` every tick and `_buy_objects` every
`ACTION_INTERVAL = 50` ticks.  `AI.state` is declared as
`Literal["AGGRESSIVE", "ATTACKED", "BROKE", "BUILD_UP", "THREATENED"]`; the
states are embedded as the literal strings the source assigns and compares,
because the comparison in `_buy_objects` line 301 uses the string
`"BUILD UP"` (with a space) while `_determine_state` assigns `"BUILD_UP"`
(with an underscore). -/

/-- Embeds `AI._determine_state` (src/src/ai.py lines 91-103): the chained
conditional assigning `self.state`.  `0.6 * max_health` and the
`THREAT_RANGE = 500` distance test are embedded exactly (the distance as
squares). -/
def determineState (teamIron : ℤ) (incomeRate : ℚ) (hqHealth hqMaxHealth : ℤ)
    (defenseCooldown : ℤ) (enemyUnitPos : List Pt) (hqPos : Pt)
    (waveNumber : ℕ) (playerBaseSize : ℕ) : String :=
  if teamIron < 300 ∨ incomeRate < 50 then "BROKE"
  else if (hqHealth : ℚ) < (hqMaxHealth : ℚ) * (6 / 10) ∨ 0 < defenseCooldown then
    "ATTACKED"
  else if enemyUnitPos.any fun p => decide (sqDist p hqPos < 250000) then
    "THREATENED"
  else if 2 ≤ waveNumber ∨ 8 < playerBaseSize then "AGGRESSIVE"
  else "BUILD_UP"

/-- Number of elements of kind `k` (the source's
`len([u for u in ... if isinstance(u, K)])`). -/
def countKind (l : List GKind) (k : GKind) : ℕ :=
  (l.filter fun x => x = k).length

/-- The per-kind values of the desired-unit-ratio table. -/
def desiredShare : GKind → ℕ
  | .harvester => 4
  | .infantry => 6
  | .tank => 3
  | .turret => 3
  | _ => 0

/-- Computes `int(ratio * SCALE_FACTOR)` with `SCALE_FACTOR = 1.8`: Python `int()`
truncates toward zero; the products are positive, so this is
`floor(ratio * 9/5) = (9 * ratio) / 5` in natural division
(7, 10, 5, 5 — the `1.8` binary float rounds the same way on these). -/
def desiredQuota (k : GKind) : ℕ :=
  9 * desiredShare k / 5

/-- The inputs `AI._buy_objects` reads. -/
structure AIView where
  aiState : String
  teamIron : ℤ
  ironIncomeRate : ℚ
  hasEnoughPower : Bool
  queue : List GKind
  friendlyUnits : List GKind
  friendlyBuildings : List GKind
  enemyHarvesterCount : ℕ
  deriving DecidableEq, Repr, Inhabited

/-- The purchase-decision portion of `AI._buy_objects` (src/src/ai.py lines
231-404), which decides what (if anything) to append to the production
queue this cycle.  (The function's trailing lines 406-422 re-arm the
production timer and trigger AI building placement; they enqueue nothing
and are not part of the purchase decision.)  `random.choice` over the
assembled option list is modelled by the oracle index `pick`, reduced
modulo the list length.  Returns the new queue and iron. -/
def aiBuyObjectsDecision (v : AIView) (pick : ℕ) : List GKind × ℤ :=
  let harvCount := countKind v.friendlyUnits .harvester
  let infCount := countKind v.friendlyUnits .infantry
  let tankCount := countKind v.friendlyUnits .tank
  let turretCount := countKind v.friendlyBuildings .turret
  let ppCount := countKind v.friendlyBuildings .powerPlant
  -- the live-health refilter on barracks/war factories is a no-op: the
  -- friendly-building list is the live view Game.team_buildings
  let barracksCount := countKind v.friendlyBuildings .barracks
      + countKind v.queue .barracks
  let wfCount := countKind v.friendlyBuildings .warFactory
      + countKind v.queue .warFactory
  let desiredPP := max 1 ((harvCount + 1) / 2)
  let hasBarracks := 0 < barracksCount
  let hasWf := 0 < wfCount
  let totalMilitary := infCount + tankCount + turretCount
  if ¬ hasBarracks ∧ GKind.barracks.cost ≤ v.teamIron then
    aiBuyObject v.queue v.teamIron .barracks
  else if ¬ hasWf ∧ GKind.warFactory.cost ≤ v.teamIron then
    aiBuyObject v.queue v.teamIron .warFactory
  else if v.hasEnoughPower ∧ GKind.powerPlant.cost ≤ v.teamIron
      ∧ ppCount < desiredPP then
    aiBuyObject v.queue v.teamIron .powerPlant
  else if (harvCount < min (desiredQuota .harvester) (v.enemyHarvesterCount + 1)
        ∨ v.ironIncomeRate < 50)
      ∧ GKind.harvester.cost ≤ v.teamIron ∧ hasWf then
    aiBuyObject v.queue v.teamIron .harvester
  else if v.teamIron ≤ 0 then
    (v.queue, v.teamIron)
  else if v.aiState = "BUILD UP" ∨ v.aiState = "AGGRESSIVE" then
    let opts : List GKind :=
      (if totalMilitary < 6 ∧ hasBarracks ∧ GKind.infantry.cost ≤ v.teamIron
          ∧ infCount < desiredQuota .infantry then [.infantry] else [])
      ++ (if totalMilitary < 6 ∧ hasWf ∧ GKind.tank.cost ≤ v.teamIron
          ∧ tankCount < desiredQuota .tank then [.tank] else [])
      ++ (if GKind.turret.cost ≤ v.teamIron
          ∧ turretCount < desiredQuota .turret then [.turret] else [])
      ++ (if hasBarracks ∧ GKind.infantry.cost ≤ v.teamIron
          ∧ infCount < desiredQuota .infantry then [.infantry] else [])
      ++ (if hasWf ∧ GKind.tank.cost ≤ v.teamIron
          ∧ tankCount < desiredQuota .tank then [.tank] else [])
      ++ (if harvCount < desiredQuota .harvester
          ∧ GKind.harvester.cost ≤ v.teamIron ∧ hasWf then [.harvester] else [])
      ++ (if ppCount < desiredPP ∧ GKind.powerPlant.cost ≤ v.teamIron then
          [.powerPlant] else [])
      ++ (if barracksCount < 2 ∧ GKind.barracks.cost ≤ v.teamIron
          ∧ 6 ≤ totalMilitary then [.barracks] else [])
      ++ (if wfCount < 2 ∧ GKind.warFactory.cost ≤ v.teamIron
          ∧ 6 ≤ totalMilitary then [.warFactory] else [])
      ++ (if GKind.headquarters.cost ≤ v.teamIron ∧ 2 ≤ harvCount then
          [.headquarters] else [])
    if opts ≠ [] then
      aiBuyObject v.queue v.teamIron (opts.getD (pick % opts.length) default)
    else (v.queue, v.teamIron)
  else if v.aiState = "ATTACKED" ∨ v.aiState = "THREATENED" then
    let opts : List GKind :=
      (if GKind.turret.cost ≤ v.teamIron
          ∧ turretCount < desiredQuota .turret then [.turret] else [])
      ++ (if hasWf ∧ GKind.tank.cost ≤ v.teamIron
          ∧ tankCount < desiredQuota .tank then [.tank] else [])
      ++ (if hasBarracks ∧ GKind.infantry.cost ≤ v.teamIron
          ∧ infCount < desiredQuota .infantry then [.infantry] else [])
      ++ (if harvCount < min (desiredQuota .harvester) (v.enemyHarvesterCount + 1)
          ∧ GKind.harvester.cost ≤ v.teamIron ∧ hasWf then [.harvester] else [])
      ++ (if ppCount < desiredPP ∧ GKind.powerPlant.cost ≤ v.teamIron then
          [.powerPlant] else [])
    if opts ≠ [] then
      aiBuyObject v.queue v.teamIron (opts.getD (pick % opts.length) default)
    else (v.queue, v.teamIron)
  else if v.aiState = "BROKE" ∧ hasWf ∧ GKind.harvester.cost ≤ v.teamIron
      ∧ harvCount < min (desiredQuota .harvester) (v.enemyHarvesterCount + 1) then
    aiBuyObject v.queue v.teamIron .harvester
  else
    (v.queue, v.teamIron)

/-! ## Fog of war (src/src/fog_of_war.py)

The `explored`/`visible` boolean grids are indexed `[x][y]` with
`len(explored) = map_width // tile_size` columns and
`len(explored[0]) = map_height // tile_size` rows.  A nested list of
booleans mutated cell-by-cell is embedded as a total function
`ℕ → ℕ → Bool` together with the two grid dimensions; every write the
source performs is bounds-checked before the index, so the two models
agree on all reads the source makes. -/

/-- Fog-of-war state. -/
structure Fog where
  gw : ℕ
  gh : ℕ
  tileSize : ℤ
  explored : ℕ → ℕ → Bool
  visible : ℕ → ℕ → Bool

/-- Embeds `FogOfWar.tile`: integer tile coordinates of a world position
(Python `//` on floats is the floor). -/
def fogTile (fog : Fog) (pos : Pt) : ℤ × ℤ :=
  (⌊pos.x / (fog.tileSize : ℚ)⌋, ⌊pos.y / (fog.tileSize : ℚ)⌋)

/-- Embeds `FogOfWar._reveal` (lines 46-64): mark every tile in the
`radius_tiles` window around `center`'s tile whose tile-center lies within
`radius` of `center` as both explored and visible.  The doubly nested
`for` loop only ever sets cells to `True`, so it is embedded as a pointwise
override. -/
def fogReveal (fog : Fog) (center : Pt) (radius : ℚ) : Fog :=
  let t := fogTile fog center
  let rt : ℤ := ⌊radius / (fog.tileSize : ℚ)⌋
  let hits : ℕ → ℕ → Bool := fun x y =>
    decide (max 0 (t.1 - rt) ≤ (x : ℤ) ∧ (x : ℤ) < min (fog.gw : ℤ) (t.1 + rt + 1)
      ∧ max 0 (t.2 - rt) ≤ (y : ℤ) ∧ (y : ℤ) < min (fog.gh : ℤ) (t.2 + rt + 1)
      ∧ (center.x - ((x : ℚ) * fog.tileSize + ((fog.tileSize / 2 : ℤ) : ℚ))) ^ 2
        + (center.y - ((y : ℚ) * fog.tileSize + ((fog.tileSize / 2 : ℤ) : ℚ))) ^ 2
        ≤ radius ^ 2)
  { fog with
    explored := fun x y => fog.explored x y || hits x y
    visible := fun x y => fog.visible x y || hits x y }

/-- A unit or building as the fog update sees it. -/
structure FogEnt where
  pos : Pt
  team : TeamId
  health : ℤ
  deriving DecidableEq, Repr, Inhabited

/-- The forced-tile write of `FogOfWar.update_visibility` (lines 81-87):
for **any** live building, friendly or not, force its own tile visible
when the tile index is in bounds. -/
def fogForceTile (f1 : Fog) (b : FogEnt) : Fog :=
  if 0 < b.health then
    if 0 ≤ (fogTile f1 b.pos).1 ∧ (fogTile f1 b.pos).1 < (f1.gw : ℤ)
        ∧ 0 ≤ (fogTile f1 b.pos).2 ∧ (fogTile f1 b.pos).2 < (f1.gh : ℤ) then
      { f1 with visible := fun x y =>
          if x = (fogTile f1 b.pos).1.toNat ∧ y = (fogTile f1 b.pos).2.toNat
          then true else f1.visible x y }
    else f1
  else f1

/-- The per-building body of the second loop of
`FogOfWar.update_visibility` (lines 77-87): reveal radius 200 around
friendly buildings; then run the forced-tile write. -/
def fogBuildingStep (team : TeamId) (fog : Fog) (b : FogEnt) : Fog :=
  fogForceTile (if b.team = team then fogReveal fog b.pos 200 else fog) b

/-- Embeds `FogOfWar.update_visibility` (lines 66-87): clear the whole `visible`
grid, reveal radius 150 around friendly units, then run the building loop.
-/
def fogUpdateVisibility (fog : Fog) (units buildings : List FogEnt)
    (team : TeamId) : Fog :=
  let f0 : Fog := { fog with visible := fun _ _ => false }
  let f1 := units.foldl
    (fun f u => if u.team = team then fogReveal f u.pos 150 else f) f0
  buildings.foldl (fogBuildingStep team) f1

/-- Embeds `FogOfWar.is_visible` (lines 89-95): bounds-check the tile index and
return `False` outside the grid. -/
def fogIsVisible (fog : Fog) (pos : Pt) : Bool :=
  let t := fogTile fog pos
  if 0 ≤ t.1 ∧ t.1 < (fog.gw : ℤ) ∧ 0 ≤ t.2 ∧ t.2 < (fog.gh : ℤ) then
    fog.visible t.1.toNat t.2.toNat
  else false

/-- Embeds `FogOfWar.is_explored` (lines 97-103): same shape as `is_visible`. -/
def fogIsExplored (fog : Fog) (pos : Pt) : Bool :=
  let t := fogTile fog pos
  if 0 ≤ t.1 ∧ t.1 < (fog.gw : ℤ) ∧ 0 ≤ t.2 ∧ t.2 < (fog.gh : ℤ) then
    fog.explored t.1.toNat t.2.toNat
  else false

/-- The fog mutations available during a match: every caller goes through
`_reveal` or `update_visibility`. -/
inductive FogOp where
  | reveal (center : Pt) (radius : ℚ)
  | updateVis (units buildings : List FogEnt) (team : TeamId)

/-- Apply a sequence of fog operations in order. -/
def fogApplyOps (fog : Fog) : List FogOp → Fog
  | [] => fog
  | .reveal c r :: ops => fogApplyOps (fogReveal fog c r) ops
  | .updateVis us bs t :: ops => fogApplyOps (fogUpdateVisibility fog us bs t) ops

/-! ## Real-valued movement geometry

These embeddings keep the square-root *values* the source divides by
(`speed * dx / dist` and the like), so they live over `ℝ` with
`Real.sqrt` and are noncomputable; concrete evaluations in the theorems
below pick inputs whose distances are perfect squares. -/

section RealGeometry

open Classical

/-- A point with real coordinates. -/
structure PtR where
  x : ℝ
  y : ℝ

/-- A pygame rect with real coordinates: top-left corner and size. -/
structure RectR where
  x : ℝ
  y : ℝ
  w : ℝ
  h : ℝ

/-- The center of a real rect. -/
noncomputable def RectR.center (r : RectR) : PtR :=
  ⟨r.x + r.w / 2, r.y + r.h / 2⟩

/-- Embeds `GameObject.distance_to`: the Euclidean distance. -/
noncomputable def distR (a b : PtR) : ℝ :=
  Real.sqrt ((b.x - a.x) ^ 2 + (b.y - a.y) ^ 2)

/-- Pygame's `Rect.colliderect` over real rects. -/
def collideRectR (a b : RectR) : Prop :=
  a.x < b.x + b.w ∧ a.y < b.y + b.h ∧ b.x < a.x + a.w ∧ b.y < a.y + a.h

/-- The constant `MAP_WIDTH` (src/src/constants.py). -/
def MAP_W : ℝ := 1600

/-- The constant `MAP_HEIGHT` (src/src/constants.py). -/
def MAP_H : ℝ := 800

/-- One axis of pygame's `Rect.clamp_ip` against `Rect(0, 0, bound, _)`:
center the rect when it is at least as large as the bound, else clip the
coordinate into `[0, bound - len]`. -/
noncomputable def clampAxis (x len bound : ℝ) : ℝ :=
  if bound ≤ len then bound / 2 - len / 2
  else if x < 0 then 0
  else if bound < x + len then bound - len
  else x

/-- Embeds `self.rect.clamp_ip(pg.Rect(0, 0, MAP_WIDTH, MAP_HEIGHT))`. -/
noncomputable def clampToMap (r : RectR) : RectR :=
  { r with x := clampAxis r.x r.w MAP_W, y := clampAxis r.y r.h MAP_H }

/-- The mobile-unit state read and written by `GameObject.move_toward`
(src/src/game_objects/game_object.py lines 53-85; the variant in
src/src/game_object.py lines 49-75 is identical up to the `target_unit`
field name).  `targetObjectHealth` carries the only field of
`target_object` the method reads. -/
structure UnitMobR where
  rect : RectR
  speed : ℝ
  attackRange : ℝ
  target : Option PtR
  targetObjectHealth : Option ℤ
  formationTarget : Option PtR

/-- The movement common to all three branches: step `speed` toward `t`
when farther than `ARRIVAL_RADIUS = 5`, then clamp to the map. -/
noncomputable def moveStepRect (u : UnitMobR) (t : PtR) : RectR :=
  let c := u.rect.center
  let dist := distR c t
  let r1 :=
    if 5 < dist then
      { u.rect with
        x := u.rect.x + u.speed * (t.x - c.x) / dist
        y := u.rect.y + u.speed * (t.y - c.y) / dist }
    else u.rect
  clampToMap r1

/-- The `elif self.formation_target` / `elif self.target` chain of
`move_toward` (the part reached when the first branch's guard fails). -/
noncomputable def moveTowardNoObj (u : UnitMobR) : UnitMobR :=
  match u.formationTarget with
  | some f => { u with rect := moveStepRect u f }
  | none =>
    match u.target with
    | some t => { u with rect := moveStepRect u t }
    | none => u

/-- Embeds `GameObject.move_toward`: chase a live `target_object` down to
`attack_range` (clearing `target` once inside it), else follow
`formation_target`, else follow the plain point `target` — which is
*never* cleared by this method. -/
noncomputable def moveToward (u : UnitMobR) : UnitMobR :=
  match u.target, u.targetObjectHealth with
  | some t, some hp =>
    if 0 < hp then
      if u.attackRange < distR u.rect.center t then
        { u with rect := moveStepRect u t }
      else
        { u with target := none }
    else moveTowardNoObj u
  | _, _ => moveTowardNoObj u

/-- A unit as `Game.handle_collisions` sees it. -/
structure ColUnitR where
  rect : RectR
  isHarvester : Bool

/-- The body of `Game.handle_collisions` (src/src/game.py lines 62-77) for
one ordered pair of distinct overlapping units: with
`d = displacement_to(other) = other.center - unit.center` and
`dist = |d|`, the source runs `unit.rect.x += push * d.x / dist` and
`other.rect.y -= push * d.y / dist` (`push` is 0.3 for two harvesters,
else 0.5) — two of the four coordinates, with the first moved *toward*
the other unit. -/
noncomputable def handleCollisionPair (u o : ColUnitR) : ColUnitR × ColUnitR :=
  if collideRectR u.rect o.rect then
    let cu := u.rect.center
    let co := o.rect.center
    let dist := distR cu co
    if 0 < dist then
      let push : ℝ := if u.isHarvester ∧ o.isHarvester then 3 / 10 else 1 / 2
      ({ u with rect := { u.rect with x := u.rect.x + push * (co.x - cu.x) / dist } },
       { o with rect := { o.rect with y := o.rect.y - push * (co.y - cu.y) / dist } })
    else (u, o)
  else (u, o)

/-- Projectile state for `Projectile.update`. -/
structure ProjFlightR where
  pos : PtR
  damage : ℤ
  alive : Bool

/-- The target as `Projectile.update` reads it. -/
structure TargetR where
  pos : PtR
  health : ℤ

/-- Embeds `Projectile.update` (src/src/projectile.py lines 33-78): with a live
target farther than 3 units, fly `SPEED = 6` toward it
(`cos(atan2(dy,dx)) = dx/dist`); within 3 units, or with a dead or missing
target, `self.kill()`.  The method never writes to any game object — the
target is returned untouched in every branch, which the pair result makes
explicit. -/
noncomputable def projectileUpdate (p : ProjFlightR) (target : Option TargetR) :
    ProjFlightR × Option TargetR :=
  match target with
  | some t =>
    if 0 < t.health then
      let dx := t.pos.x - p.pos.x
      let dy := t.pos.y - p.pos.y
      let dist := Real.sqrt (dx ^ 2 + dy ^ 2)
      if 3 < dist then
        ({ p with pos := ⟨p.pos.x + 6 * dx / dist, p.pos.y + 6 * dy / dist⟩ },
         target)
      else
        ({ p with alive := false }, target)
    else ({ p with alive := false }, target)
  | none => ({ p with alive := false }, target)

end RealGeometry

/-! ## Theorems -/

/-- Claim C1: a harvester whose HARVESTING countdown has reached zero on a
target field harvests `h = min(field.resources, capacity)` with
capacity = 100, adds `h` to its cargo, subtracts `h` from the field, and
enters RETURNING toward its headquarters; on then arriving within 30 units
of the headquarters it deposits its whole cargo into the headquarters' iron
stockpile and zeroes its cargo — the completed cycle raises the stockpile
by exactly `h` and lowers that field's resources by exactly `h` (and the
in-flight RETURNING updates change nothing else). -/
theorem harvester_cycle_moves_h_iron
    (hv : HarvesterS) (fields : List IronFieldS) (hqIron : ℤ)
    (i : ℕ) (f : IronFieldS)
    (hstate : hv.state = .harvesting)
    (htime : ¬ 0 < hv.harvestTime)
    (htf : hv.targetField = some i)
    (hget : fields.get? i = some f)
    (hcap : hv.capacity = 100)
    (hcargo : hv.iron = 0) :
    harvesterEconomyStep hv fields hqIron
      = some ({ hv with iron := min f.resources 100, state := .returning,
                        target := some hv.hqPos },
              fields.set i { f with resources := f.resources - min f.resources 100 },
              hqIron)
    ∧ (fields.set i { f with resources := f.resources - min f.resources 100 }).get? i
        = some { f with resources := f.resources - min f.resources 100 }
    ∧ (∀ p2 : Pt, sqDist p2 hv.hqPos < 900 →
        harvesterEconomyStep
          { hv with pos := p2, iron := min f.resources 100, state := .returning,
                    target := some hv.hqPos }
          (fields.set i { f with resources := f.resources - min f.resources 100 })
          hqIron
        = some ({ hv with pos := p2, iron := 0, state := .movingToField,
                          target := none },
                fields.set i { f with resources := f.resources - min f.resources 100 },
                hqIron + min f.resources 100))
    ∧ (∀ p2 : Pt, ¬ sqDist p2 hv.hqPos < 900 →
        harvesterEconomyStep
          { hv with pos := p2, iron := min f.resources 100, state := .returning,
                    target := some hv.hqPos }
          (fields.set i { f with resources := f.resources - min f.resources 100 })
          hqIron
        = some ({ hv with pos := p2, iron := min f.resources 100,
                          state := .returning, target := some hv.hqPos },
                fields.set i { f with resources := f.resources - min f.resources 100 },
                hqIron)) :=
  by
  have hlen : i < fields.length := by
    rcases List.get?_eq_some.mp hget with ⟨hl, _⟩
    exact hl
  have hgd : fields.getD i default = f := by
    rw [List.getD_eq_getElem?_getD, ← List.get?_eq_getElem?, hget]
    rfl
  refine ⟨?_, ?_, ?_, ?_⟩
  · simp only [harvesterEconomyStep, hstate, htf, hgd, if_neg htime, hcargo, hcap]
    norm_num
  · rw [List.get?_eq_getElem?]
    exact List.getElem?_set_eq_of_lt _ (by simpa using hlen)
  · intro p2 hp2
    simp only [harvesterEconomyStep, if_pos hp2]
  · intro p2 hp2
    simp only [harvesterEconomyStep, if_neg hp2]

/-- Witness for C1 at a concrete cycle: a harvester over a 250-resource
field harvests 100, and depositing at distance √2 from the headquarters
raises the stockpile from 7 to 107. -/
theorem harvester_cycle_moves_h_iron_witness :
    harvesterEconomyStep
      { pos := ⟨0, 0⟩, capacity := 100, iron := 0, state := .harvesting,
        targetField := some 0, harvestTime := 0, target := none, hqPos := ⟨5, 5⟩ }
      [⟨⟨20, 0⟩, 250⟩] 7
      = some ({ pos := ⟨0, 0⟩, capacity := 100, iron := 150 - 50,
                state := .returning, targetField := some 0, harvestTime := 0,
                target := some ⟨5, 5⟩, hqPos := ⟨5, 5⟩ },
              [⟨⟨20, 0⟩, 150⟩], 7)
    ∧ harvesterEconomyStep
      { pos := ⟨6, 6⟩, capacity := 100, iron := 100, state := .returning,
        targetField := some 0, harvestTime := 0, target := some ⟨5, 5⟩,
        hqPos := ⟨5, 5⟩ }
      [⟨⟨20, 0⟩, 150⟩] 7
      = some ({ pos := ⟨6, 6⟩, capacity := 100, iron := 0,
                state := .movingToField, targetField := some 0,
                harvestTime := 0, target := none, hqPos := ⟨5, 5⟩ },
              [⟨⟨20, 0⟩, 150⟩], 107) :=
  by
  have H := harvester_cycle_moves_h_iron
    { pos := ⟨0, 0⟩, capacity := 100, iron := 0, state := .harvesting,
      targetField := some 0, harvestTime := 0, target := none, hqPos := ⟨5, 5⟩ }
    [⟨⟨20, 0⟩, 250⟩] 7 0 ⟨⟨20, 0⟩, 250⟩
    rfl (by decide) rfl rfl rfl rfl
  obtain ⟨h1, _, h3, _⟩ := H
  constructor
  · simpa using h1
  · have := h3 ⟨6, 6⟩ (by norm_num [sqDist])
    simpa using this

/-- Claim C2 counterexample: a projectile sitting within 3 units of its
live target (here: exactly on it) does *not* apply damage there —
`Projectile.update` kills the projectile and leaves the victim's health
(80) and `under_attack` untouched, contradicting the claim that coming
within 3 units applies the damage to the victim. -/
theorem projectile_within_three_no_damage_cex :
    projectileUpdate ⟨⟨100, 100⟩, 20, true⟩ (some ⟨⟨100, 100⟩, 80⟩)
      = (⟨⟨100, 100⟩, 20, false⟩, some ⟨⟨100, 100⟩, 80⟩) := by
  unfold projectileUpdate
  norm_num

/-- Claim C2 (amended): when a projectile comes within 3 units of its live
target, `Projectile.update` destroys the projectile *without* applying any
damage (it never writes to a game object); the damage, the `under_attack`
flag, the projectile's destruction and the victim's death at health ≤ 0
happen in `Game.handle_projectiles`, at the first enemy unit or building of
the opposing team whose rect the projectile's rect collides with — not
only the original target. -/
theorem projectile_impact_resolution :
    (∀ (p : ProjFlightR) (t : TargetR), 0 < t.health →
      Real.sqrt ((t.pos.x - p.pos.x) ^ 2 + (t.pos.y - p.pos.y) ^ 2) ≤ 3 →
      projectileUpdate p (some t) = ({ p with alive := false }, some t))
    ∧ (∀ (p : Proj) (pre post : List Ent) (e : Ent),
      (∀ e2 ∈ pre, ¬ collideRect p.rect e2.rect) →
      collideRect p.rect e.rect →
      projHitScan p (pre ++ e :: post)
        = (pre ++
            { e with health := e.health - p.damage, underAttack := true,
                     alive := if e.health - p.damage ≤ 0 then false else e.alive }
            :: post,
           true)) := by
  constructor
  · intro p t ht hd
    simp only [projectileUpdate]
    rw [if_pos ht, if_neg (not_lt.mpr hd)]
  · intro p pre post e hpre hc
    induction pre with
    | nil => simp [projHitScan, hc]
    | cons e2 rest ih =>
      have h2 : ¬ collideRect p.rect e2.rect := hpre e2 (by simp)
      have hrest : ∀ x ∈ rest, ¬ collideRect p.rect x.rect := fun x hx =>
        hpre x (by simp [hx])
      simp [projHitScan, if_neg h2, ih hrest]

/-- Witness for C2 (amended): a projectile 2 units from its live target
self-destructs without damage, and a projectile whose rect overlaps an
enemy building deals its 20 damage there, sets `under_attack`, dies, and
kills the 15-health victim. -/
theorem projectile_impact_resolution_witness :
    projectileUpdate ⟨⟨100, 100⟩, 20, true⟩ (some ⟨⟨102, 100⟩, 50⟩)
      = (⟨⟨100, 100⟩, 20, false⟩, some ⟨⟨102, 100⟩, 50⟩)
    ∧ projHitScan
        ⟨⟨95, 97, 10, 5⟩, 20, .gdi, true⟩
        [⟨⟨80, 80, 40, 40⟩, 15, .nod, false, true⟩]
      = ([⟨⟨80, 80, 40, 40⟩, -5, .nod, true, false⟩], true) := by
  obtain ⟨h1, h2⟩ := projectile_impact_resolution
  constructor
  · have hs : Real.sqrt ((102 - (100 : ℝ)) ^ 2 + ((100 : ℝ) - 100) ^ 2) ≤ 3 := by
      rw [show (102 - (100 : ℝ)) ^ 2 + ((100 : ℝ) - 100) ^ 2 = 2 ^ 2 by norm_num,
        Real.sqrt_sq (by norm_num)]
      norm_num
    exact h1 ⟨⟨100, 100⟩, 20, true⟩ ⟨⟨102, 100⟩, 50⟩ (by norm_num) hs
  · have := h2 ⟨⟨95, 97, 10, 5⟩, 20, .gdi, true⟩ [] []
      ⟨⟨80, 80, 40, 40⟩, 15, .nod, false, true⟩
      (by simp) (by constructor <;> norm_num)
    simpa using this

/-- Claim C3 (code check): with the Barracks, WarFactory, PowerPlant and
Harvester gates all satisfied, positive iron and several affordable
under-quota options, `_buy_objects` in state `"BUILD_UP"` — the value
`_determine_state` actually assigns, as the third conjunct shows — makes
no purchase at all, whatever the random pick: the branch guard on
src/src/ai.py line 301 compares the state against `"BUILD UP"` (with a
space), which no reachable state value ever equals.  The same inputs in
state `"AGGRESSIVE"` enqueue exactly one chosen option and deduct its
cost. -/
theorem ai_buildup_purchase_branch_is_dead :
    (∀ pick : ℕ,
      aiBuyObjectsDecision
        { aiState := "BUILD_UP", teamIron := 1000, ironIncomeRate := 60,
          hasEnoughPower := true, queue := [],
          friendlyUnits := [.harvester, .harvester, .infantry],
          friendlyBuildings := [.headquarters, .barracks, .warFactory,
            .powerPlant, .turret],
          enemyHarvesterCount := 1 } pick
      = ([], 1000))
    ∧ aiBuyObjectsDecision
        { aiState := "AGGRESSIVE", teamIron := 1000, ironIncomeRate := 60,
          hasEnoughPower := true, queue := [],
          friendlyUnits := [.harvester, .harvester, .infantry],
          friendlyBuildings := [.headquarters, .barracks, .warFactory,
            .powerPlant, .turret],
          enemyHarvesterCount := 1 } 0
      = ([.infantry], 900)
    ∧ determineState 1000 60 1200 1200 0 [] ⟨0, 0⟩ 0 0 = "BUILD_UP" := by
  refine ⟨fun pick => ?_, by decide, by norm_num [determineState]⟩
  rfl

/-- Claim C4 counterexample: `AI._buy_object` run against a production
queue that already holds 5 items appends a sixth — the AI purchase path
has no queue-length check, so enqueueing does *not* always leave the queue
at or below 5 entries. -/
theorem ai_buy_overfills_queue_cex :
    (aiBuyObject [.infantry, .infantry, .infantry, .infantry, .infantry]
      1000 .tank).1.length = 6 := by
  decide

/-- Claim C4 (amended): the *player* buy path refuses the purchase when the
queue already holds `MAX_PRODUCTION_QUEUE_LENGTH = 5` items, so it keeps
the queue at or below 5; the *AI* purchase path appends unconditionally,
growing the queue by exactly one whatever its length, so the 5-entry
bound holds only for player-driven enqueues. -/
theorem production_queue_bound_player_only
    (queue : List GKind) (teamIron : ℤ) (cls : GKind) (reqOk : Bool)
    (hlen : queue.length ≤ 5) :
    (playerBuyClick queue teamIron cls reqOk).1.length ≤ 5
    ∧ (aiBuyObject queue teamIron cls).1.length = queue.length + 1 := by
  constructor
  · unfold playerBuyClick
    rcases Nat.lt_or_ge queue.length 5 with h | h
    · rw [if_neg (by omega)]
      split
      · simp only [List.length_append, List.length_cons, List.length_nil]
        omega
      · exact hlen
    · rw [if_pos (by omega)]
      exact hlen
  · simp [aiBuyObject]

/-- Witness for C4: from a 4-entry queue the player click stays at ≤ 5
while the AI append reaches exactly 5. -/
theorem production_queue_bound_player_only_witness :
    (playerBuyClick [.infantry, .tank, .tank, .turret] 1000 .tank true).1.length ≤ 5
    ∧ (aiBuyObject [.infantry, .tank, .tank, .turret] 1000 .tank).1.length
      = [GKind.infantry, GKind.tank, GKind.tank, GKind.turret].length + 1 :=
  production_queue_bound_player_only
    [.infantry, .tank, .tank, .turret] 1000 .tank true (by decide)

/-- Claim C5 (code check): two overlapping non-harvester units whose
centers are 6 units apart on the x-axis.  `handle_collisions` moves the
first unit 0.5 units *toward* the second (and leaves the second in place,
its y-push being zero here), so their center distance *decreases* from 6
to 5.5 — the pair is pushed together, not apart.  The older snapshot of
this routine (CondaRTS.py lines 54-72) pushes both units apart
symmetrically on both axes, which is what the claim describes. -/
theorem collision_pair_decreases_distance_cex :
    handleCollisionPair ⟨⟨90, 90, 20, 20⟩, false⟩ ⟨⟨96, 90, 20, 20⟩, false⟩
      = (⟨⟨90 + 1 / 2, 90, 20, 20⟩, false⟩, ⟨⟨96, 90, 20, 20⟩, false⟩)
    ∧ distR (RectR.center ⟨90 + 1 / 2, 90, 20, 20⟩) (RectR.center ⟨96, 90, 20, 20⟩)
      < distR (RectR.center ⟨90, 90, 20, 20⟩) (RectR.center ⟨96, 90, 20, 20⟩) := by
  have hc : collideRectR (⟨90, 90, 20, 20⟩ : RectR) ⟨96, 90, 20, 20⟩ := by
    refine ⟨?_, ?_, ?_, ?_⟩ <;> norm_num
  have hd : distR (RectR.center ⟨90, 90, 20, 20⟩) (RectR.center ⟨96, 90, 20, 20⟩)
      = 6 := by
    simp only [distR, RectR.center]
    rw [show ((96 + 20 / 2 : ℝ) - (90 + 20 / 2)) ^ 2
        + ((90 + 20 / 2 : ℝ) - (90 + 20 / 2)) ^ 2 = 6 ^ 2 by norm_num]
    exact Real.sqrt_sq (by norm_num)
  have hd6 : distR ⟨100, 100⟩ (⟨106, 100⟩ : PtR) = 6 := by
    simp only [distR]
    rw [show ((106 : ℝ) - 100) ^ 2 + ((100 : ℝ) - 100) ^ 2 = 6 ^ 2 by norm_num]
    exact Real.sqrt_sq (by norm_num)
  constructor
  · unfold handleCollisionPair
    rw [if_pos hc, if_pos (by rw [hd]; norm_num)]
    simp only [RectR.center]
    norm_num [hd6]
  · rw [hd]
    have : distR (RectR.center ⟨90 + 1 / 2, 90, 20, 20⟩)
        (RectR.center ⟨96, 90, 20, 20⟩) = 11 / 2 := by
      simp only [distR, RectR.center]
      rw [show ((96 + 20 / 2 : ℝ) - (90 + 1 / 2 + 20 / 2)) ^ 2
          + ((90 + 20 / 2 : ℝ) - (90 + 20 / 2)) ^ 2 = (11 / 2) ^ 2 by norm_num]
      exact Real.sqrt_sq (by norm_num)
    rw [this]
    norm_num

/-- Clamping a coordinate that already satisfies the map bounds is the
identity. -/
theorem clampAxis_id (x len bound : ℝ) (h0 : 0 ≤ x) (h1 : x + len ≤ bound) :
    clampAxis x len bound = x := by
  unfold clampAxis
  split_ifs with hb hn hf
  · have hx : x = 0 := le_antisymm (by linarith) h0
    have hlb : len = bound := le_antisymm (by linarith) hb
    rw [hx, hlb]
    ring
  · linarith
  · linarith
  · rfl

/-- Clamping moves a coordinate by no more than the unclamped step did,
provided the starting rect is inside the map. -/
theorem clampAxis_sub_abs_le (x len bound d : ℝ) (h0 : 0 ≤ x)
    (h1 : x + len ≤ bound) :
    |clampAxis (x + d) len bound - x| ≤ |d| := by
  unfold clampAxis
  split_ifs with hb hn hf
  · have hx : x = 0 := le_antisymm (by linarith) h0
    have hlb : len = bound := le_antisymm (by linarith) hb
    rw [hx, hlb]
    simp
  · rw [zero_sub, abs_neg, abs_of_nonneg h0]
    have := neg_le_abs d
    linarith
  · have hd0 : 0 ≤ bound - len - x := by linarith
    rw [abs_of_nonneg hd0]
    have := le_abs_self d
    linarith
  · simp

/-- Claim C6 counterexample: a unit 2 units from its plain point target
(no target object, no formation target) is within `ARRIVAL_RADIUS = 5`,
yet `move_toward` leaves it entirely unchanged — in particular `target`
is still set, not cleared as the claim states. -/
theorem move_toward_arrival_keeps_target_cex :
    moveToward
      { rect := ⟨97, 90, 10, 20⟩, speed := 2, attackRange := 50,
        target := some ⟨100, 100⟩, targetObjectHealth := none,
        formationTarget := none }
      = { rect := ⟨97, 90, 10, 20⟩, speed := 2, attackRange := 50,
          target := some ⟨100, 100⟩, targetObjectHealth := none,
          formationTarget := none }
    ∧ distR (RectR.center ⟨97, 90, 10, 20⟩) ⟨100, 100⟩ ≤ 5 := by
  have hd : distR (RectR.center ⟨97, 90, 10, 20⟩) ⟨100, 100⟩ = 2 := by
    simp only [distR, RectR.center]
    rw [show ((100 : ℝ) - (97 + 10 / 2)) ^ 2 + ((100 : ℝ) - (90 + 20 / 2)) ^ 2
        = 2 ^ 2 by norm_num]
    exact Real.sqrt_sq (by norm_num)
  refine ⟨?_, by rw [hd]; norm_num⟩
  simp only [moveToward, moveTowardNoObj, moveStepRect]
  rw [if_neg (by rw [hd]; norm_num)]
  simp only [clampToMap, MAP_W, MAP_H]
  rw [clampAxis_id 97 10 1600 (by norm_num) (by norm_num),
    clampAxis_id 90 20 800 (by norm_num) (by norm_num)]

/-- Claim C6 (amended): a mobile unit whose only active targeting source
is a plain point target moves, per update, at most `speed` units straight
toward the point (the exact clamped step is given); once within
`ARRIVAL_RADIUS = 5` of the point the unit stops moving, but the `target`
field is left set — `move_toward` never clears a plain point target. -/
theorem move_toward_plain_point (u : UnitMobR) (t : PtR)
    (htgt : u.target = some t)
    (hobj : u.targetObjectHealth = none)
    (hform : u.formationTarget = none)
    (hspeed : 0 ≤ u.speed)
    (hxa : 0 ≤ u.rect.x) (hxb : u.rect.x + u.rect.w ≤ MAP_W)
    (hya : 0 ≤ u.rect.y) (hyb : u.rect.y + u.rect.h ≤ MAP_H) :
    (distR u.rect.center t ≤ 5 → moveToward u = u)
    ∧ (5 < distR u.rect.center t →
        (moveToward u).target = some t
        ∧ (moveToward u).rect.x
            = clampAxis (u.rect.x + u.speed * (t.x - u.rect.center.x)
                / distR u.rect.center t) u.rect.w MAP_W
        ∧ (moveToward u).rect.y
            = clampAxis (u.rect.y + u.speed * (t.y - u.rect.center.y)
                / distR u.rect.center t) u.rect.h MAP_H
        ∧ distR u.rect.center (moveToward u).rect.center ≤ u.speed) := by
  have hred : moveToward u = { u with rect := moveStepRect u t } := by
    simp only [moveToward, moveTowardNoObj, htgt, hobj, hform]
  constructor
  · intro h5
    rw [hred]
    have hstep : moveStepRect u t = u.rect := by
      simp only [moveStepRect]
      rw [if_neg (not_lt.mpr h5)]
      simp only [clampToMap]
      rw [clampAxis_id _ _ _ hxa hxb, clampAxis_id _ _ _ hya hyb]
    rw [hstep]
  · intro h5
    have hD : (0 : ℝ) < distR u.rect.center t := by linarith
    have hstep : moveStepRect u t =
        { u.rect with
          x := clampAxis (u.rect.x + u.speed * (t.x - u.rect.center.x)
              / distR u.rect.center t) u.rect.w MAP_W
          y := clampAxis (u.rect.y + u.speed * (t.y - u.rect.center.y)
              / distR u.rect.center t) u.rect.h MAP_H } := by
      simp only [moveStepRect]
      rw [if_pos h5]
      simp only [clampToMap]
    refine ⟨by rw [hred]; exact htgt, by rw [hred, hstep], by rw [hred, hstep], ?_⟩
    rw [hred, hstep]
    -- the clamped per-axis displacements are bounded by the raw step
    set c := u.rect.center with hc
    set D := distR c t with hDdef
    set sx := u.speed * (t.x - c.x) / D with hsx
    set sy := u.speed * (t.y - c.y) / D with hsy
    have hdx : |clampAxis (u.rect.x + sx) u.rect.w MAP_W - u.rect.x| ≤ |sx| :=
      clampAxis_sub_abs_le _ _ _ _ hxa hxb
    have hdy : |clampAxis (u.rect.y + sy) u.rect.h MAP_H - u.rect.y| ≤ |sy| :=
      clampAxis_sub_abs_le _ _ _ _ hya hyb
    have hD2 : D ^ 2 = (t.x - c.x) ^ 2 + (t.y - c.y) ^ 2 := by
      rw [hDdef, distR, Real.sq_sqrt (by positivity)]
    have hs2 : sx ^ 2 + sy ^ 2 = u.speed ^ 2 := by
      rw [hsx, hsy]
      field_simp
      rw [hD2]
      ring
    have hcenter : ∀ a b : ℝ, ({ u.rect with x := a, y := b } : RectR).center
        = ⟨a + u.rect.w / 2, b + u.rect.h / 2⟩ := fun a b => rfl
    rw [hcenter]
    have hcx : c.x = u.rect.x + u.rect.w / 2 := rfl
    have hcy : c.y = u.rect.y + u.rect.h / 2 := rfl
    simp only [distR]
    have hb1 : (clampAxis (u.rect.x + sx) u.rect.w MAP_W + u.rect.w / 2 - c.x) ^ 2
        ≤ sx ^ 2 := by
      rw [hcx]
      have h1 : clampAxis (u.rect.x + sx) u.rect.w MAP_W + u.rect.w / 2
          - (u.rect.x + u.rect.w / 2)
          = clampAxis (u.rect.x + sx) u.rect.w MAP_W - u.rect.x := by ring
      rw [h1, ← sq_abs (clampAxis (u.rect.x + sx) u.rect.w MAP_W - u.rect.x),
        ← sq_abs sx]
      exact pow_le_pow_left₀ (abs_nonneg _) hdx 2
    have hb2 : (clampAxis (u.rect.y + sy) u.rect.h MAP_H + u.rect.h / 2 - c.y) ^ 2
        ≤ sy ^ 2 := by
      rw [hcy]
      have h1 : clampAxis (u.rect.y + sy) u.rect.h MAP_H + u.rect.h / 2
          - (u.rect.y + u.rect.h / 2)
          = clampAxis (u.rect.y + sy) u.rect.h MAP_H - u.rect.y := by ring
      rw [h1, ← sq_abs (clampAxis (u.rect.y + sy) u.rect.h MAP_H - u.rect.y),
        ← sq_abs sy]
      exact pow_le_pow_left₀ (abs_nonneg _) hdy 2
    calc (Real.sqrt
          ((clampAxis (u.rect.x + sx) u.rect.w MAP_W + u.rect.w / 2 - c.x) ^ 2
            + (clampAxis (u.rect.y + sy) u.rect.h MAP_H + u.rect.h / 2 - c.y) ^ 2))
        ≤ Real.sqrt (sx ^ 2 + sy ^ 2) := Real.sqrt_le_sqrt (by linarith)
      _ = Real.sqrt (u.speed ^ 2) := by rw [hs2]
      _ = u.speed := Real.sqrt_sq hspeed

/-- Witness for C6: a unit 2 units from its point target satisfies the
hypotheses; the theorem instance yields that this update is a no-op (the
target survives), and since 2 ≤ 5 the first conjunct applies. -/
theorem move_toward_plain_point_witness :
    (distR (RectR.center ⟨97, 90, 10, 20⟩) ⟨100, 100⟩ ≤ 5 →
      moveToward
        { rect := ⟨97, 90, 10, 20⟩, speed := 2, attackRange := 50,
          target := some ⟨100, 100⟩, targetObjectHealth := none,
          formationTarget := none }
        = { rect := ⟨97, 90, 10, 20⟩, speed := 2, attackRange := 50,
            target := some ⟨100, 100⟩, targetObjectHealth := none,
            formationTarget := none })
    ∧ distR (RectR.center ⟨97, 90, 10, 20⟩) ⟨100, 100⟩ ≤ 5 := by
  constructor
  · intro h5
    exact (move_toward_plain_point
      { rect := ⟨97, 90, 10, 20⟩, speed := 2, attackRange := 50,
        target := some ⟨100, 100⟩, targetObjectHealth := none,
        formationTarget := none }
      ⟨100, 100⟩ rfl rfl rfl (by norm_num)
      (by norm_num) (by norm_num [MAP_W]) (by norm_num) (by norm_num [MAP_H])).1 h5
  · simp only [distR, RectR.center]
    rw [show ((100 : ℝ) - (97 + 10 / 2)) ^ 2 + ((100 : ℝ) - (90 + 20 / 2)) ^ 2
        = 2 ^ 2 by norm_num]
    rw [Real.sqrt_sq (by norm_num)]
    norm_num

/-- Claim C7: when the production timer expires on a mobile unit class at
the head of the queue and no live friendly producer building of the
required type exists (Barracks for Infantry, WarFactory for Tank or
Harvester), the popped item is discarded: nothing spawns, nothing is
re-queued, the pending-building state is untouched, and no error is
raised (the embedding is total; the source's early `return` is this
branch) — the production step is silently lost. -/
theorem hq_production_drops_unit_without_producer
    (hq : HQState) (friendlyUnits : List GKind)
    (friendlyBuildings : List BuildingS)
    (cls : GKind) (rest : List GKind) (pk : GKind)
    (hqueue : hq.queue = cls :: rest)
    (hpk : producerKind cls = some pk)
    (hnoprod : ∀ b ∈ friendlyBuildings, ¬ b.kind = pk)
    (htz : ¬ hq.timer = 0)
    (hexp : hq.timer ≤ 1 / 2) :
    hqProductionStep hq friendlyUnits friendlyBuildings
      = { hq := { hq with
                  queue := rest
                  timer := hq.timer
                    - (if powerUsageSum friendlyUnits friendlyBuildings
                        ≤ powerOutput friendlyBuildings then 1 else 1 / 2) },
          spawned := [] } := by
  have hnb : cls.isBuilding = false := by
    cases cls <;> simp_all [producerKind, GKind.isBuilding]
  have hfil : friendlyBuildings.filter (fun b => decide (b.kind = pk)) = [] :=
    List.filter_eq_nil_iff.mpr fun b hb => by simpa using hnoprod b hb
  simp only [hqProductionStep, hqueue]
  have ht0 : (if hq.timer = 0 ∧ powerUsageSum friendlyUnits friendlyBuildings
        ≤ powerOutput friendlyBuildings
      then getProductionTime cls friendlyBuildings else hq.timer) = hq.timer :=
    if_neg fun h => htz h.1
  rw [ht0]
  have hlt : ¬ (0 : ℚ) < hq.timer
      - (if powerUsageSum friendlyUnits friendlyBuildings
          ≤ powerOutput friendlyBuildings then 1 else 1 / 2) := by
    split_ifs <;> push_neg <;> linarith
  rw [if_neg hlt]
  rw [if_neg (show ¬ cls.isBuilding = true by simp [hnb])]
  simp only [hpk]
  rw [if_pos hfil]

/-- Witness for C7: an Infantry at the head of the queue with an expired
timer and no Barracks anywhere — the item vanishes, the Tank behind it
moves up, and the timer is left at its expired value −1/2. -/
theorem hq_production_drops_unit_without_producer_witness :
    hqProductionStep
      { rect := ⟨0, 0, 80, 80⟩, queue := [.infantry, .tank], timer := 1 / 2,
        pendingClass := none, pendingPos := none }
      [] [⟨.headquarters, ⟨0, 0, 80, 80⟩, 1200, true⟩]
      = { hq := { rect := ⟨0, 0, 80, 80⟩
                  queue := [.tank]
                  timer := 1 / 2 - 1
                  pendingClass := none
                  pendingPos := none },
          spawned := [] } := by
  have H := hq_production_drops_unit_without_producer
    { rect := ⟨0, 0, 80, 80⟩, queue := [.infantry, .tank], timer := 1 / 2,
      pendingClass := none, pendingPos := none }
    [] [⟨.headquarters, ⟨0, 0, 80, 80⟩, 1200, true⟩]
    .infantry [.tank] .barracks
    rfl rfl (by decide) (by norm_num) (by norm_num)
  simpa [powerUsageSum, powerOutput] using H

/-- The method `_reveal` never turns a visible tile invisible. -/
theorem fogReveal_visible_mono (fog : Fog) (c : Pt) (r : ℚ) (x y : ℕ)
    (h : fog.visible x y = true) : (fogReveal fog c r).visible x y = true := by
  simp [fogReveal, h]

/-- The method `_reveal` never turns an explored tile unexplored. -/
theorem fogReveal_explored_mono (fog : Fog) (c : Pt) (r : ℚ) (x y : ℕ)
    (h : fog.explored x y = true) : (fogReveal fog c r).explored x y = true := by
  simp [fogReveal, h]

/-- The method `_reveal` only writes the grids; the geometry is untouched. -/
theorem fogReveal_dims (fog : Fog) (c : Pt) (r : ℚ) :
    (fogReveal fog c r).gw = fog.gw ∧ (fogReveal fog c r).gh = fog.gh
    ∧ (fogReveal fog c r).tileSize = fog.tileSize :=
  ⟨rfl, rfl, rfl⟩

/-- The forced-tile write never hides a visible tile. -/
theorem fogForceTile_visible_mono (f1 : Fog) (b : FogEnt) (x y : ℕ)
    (h : f1.visible x y = true) : (fogForceTile f1 b).visible x y = true := by
  unfold fogForceTile
  split_ifs <;> simp_all

/-- The forced-tile write leaves `explored` untouched. -/
theorem fogForceTile_explored (f1 : Fog) (b : FogEnt) :
    (fogForceTile f1 b).explored = f1.explored := by
  unfold fogForceTile
  split_ifs <;> rfl

/-- The forced-tile write keeps the grid geometry. -/
theorem fogForceTile_dims (f1 : Fog) (b : FogEnt) :
    (fogForceTile f1 b).gw = f1.gw ∧ (fogForceTile f1 b).gh = f1.gh
    ∧ (fogForceTile f1 b).tileSize = f1.tileSize := by
  unfold fogForceTile
  split_ifs <;> exact ⟨rfl, rfl, rfl⟩

/-- The forced-tile write does set a live in-bounds building's tile. -/
theorem fogForceTile_sets (f1 : Fog) (b : FogEnt) (tx ty : ℕ)
    (hlive : 0 < b.health)
    (htile : fogTile f1 b.pos = ((tx : ℤ), (ty : ℤ)))
    (hx : tx < f1.gw) (hy : ty < f1.gh) :
    (fogForceTile f1 b).visible tx ty = true := by
  unfold fogForceTile
  rw [htile, if_pos hlive]
  rw [if_pos (by
    refine ⟨by simp, ?_, by simp, ?_⟩
    · simpa using Int.ofNat_lt.mpr hx
    · simpa using Int.ofNat_lt.mpr hy)]
  simp

/-- The per-building visibility step never hides a visible tile. -/
theorem fogBuildingStep_visible_mono (team : TeamId) (fog : Fog) (b : FogEnt)
    (x y : ℕ) (h : fog.visible x y = true) :
    (fogBuildingStep team fog b).visible x y = true := by
  unfold fogBuildingStep
  apply fogForceTile_visible_mono
  split_ifs with hteam
  · exact fogReveal_visible_mono fog b.pos 200 x y h
  · exact h

/-- The per-building step never unexplores a tile. -/
theorem fogBuildingStep_explored_mono (team : TeamId) (fog : Fog) (b : FogEnt)
    (x y : ℕ) (h : fog.explored x y = true) :
    (fogBuildingStep team fog b).explored x y = true := by
  unfold fogBuildingStep
  rw [fogForceTile_explored]
  split_ifs with hteam
  · exact fogReveal_explored_mono fog b.pos 200 x y h
  · exact h

/-- The per-building step keeps the grid geometry. -/
theorem fogBuildingStep_dims (team : TeamId) (fog : Fog) (b : FogEnt) :
    (fogBuildingStep team fog b).gw = fog.gw
    ∧ (fogBuildingStep team fog b).gh = fog.gh
    ∧ (fogBuildingStep team fog b).tileSize = fog.tileSize := by
  unfold fogBuildingStep
  rcases fogForceTile_dims (if b.team = team then fogReveal fog b.pos 200 else fog) b
    with ⟨h1, h2, h3⟩
  rw [h1, h2, h3]
  split_ifs <;> exact ⟨rfl, rfl, rfl⟩

/-- Folding the building loop keeps a visible tile visible. -/
theorem foldl_buildingStep_visible_mono (team : TeamId) (bs : List FogEnt)
    (f : Fog) (x y : ℕ) (h : f.visible x y = true) :
    (bs.foldl (fogBuildingStep team) f).visible x y = true := by
  induction bs generalizing f with
  | nil => exact h
  | cons b rest ih =>
    exact ih _ (fogBuildingStep_visible_mono team f b x y h)

/-- The tile of a position depends only on the tile size. -/
theorem fogTile_congr (f g : Fog) (pos : Pt) (h : f.tileSize = g.tileSize) :
    fogTile f pos = fogTile g pos := by
  simp [fogTile, h]

/-- The building loop forces the tile of any live member building visible,
whatever came before it in the list. -/
theorem buildings_fold_forces_tile (team : TeamId) (bs : List FogEnt)
    (f : Fog) (b : FogEnt) (tx ty : ℕ)
    (hmem : b ∈ bs) (hlive : 0 < b.health)
    (htile : fogTile f b.pos = ((tx : ℤ), (ty : ℤ)))
    (hx : tx < f.gw) (hy : ty < f.gh) :
    (bs.foldl (fogBuildingStep team) f).visible tx ty = true := by
  induction bs generalizing f with
  | nil => cases hmem
  | cons hd rest ih =>
    rcases List.mem_cons.mp hmem with hb | hmem2
    · subst hb
      rw [List.foldl_cons]
      apply foldl_buildingStep_visible_mono
      unfold fogBuildingStep
      have hdims : ∀ f1 : Fog, f1.gw = f.gw → f1.gh = f.gh
          → f1.tileSize = f.tileSize → (fogForceTile f1 b).visible tx ty = true := by
        intro f1 hgw hgh hts
        refine fogForceTile_sets f1 b tx ty hlive ?_ ?_ ?_
        · rw [fogTile_congr f1 f b.pos hts, htile]
        · rw [hgw]; exact hx
        · rw [hgh]; exact hy
      split_ifs with hteam
      · exact hdims _ (fogReveal_dims f b.pos 200).1 (fogReveal_dims f b.pos 200).2.1
          (fogReveal_dims f b.pos 200).2.2
      · exact hdims _ rfl rfl rfl
    · have hd1 := fogBuildingStep_dims team f hd
      exact ih (fogBuildingStep team f hd) hmem2
        (by rw [fogTile_congr _ f _ hd1.2.2, htile])
        (by rw [hd1.1]; exact hx) (by rw [hd1.2.1]; exact hy)

/-- Claim C8 counterexample: one live *enemy* building on an otherwise
empty map, far from any friendly reveal (there are no friendly entities at
all): `update_visibility` still makes its tile (3,3) visible — the claim
says a tile holding only a live enemy building outside all friendly reveal
radii stays invisible. -/
theorem fog_enemy_building_tile_visible_cex :
    (fogUpdateVisibility
      { gw := 10, gh := 10, tileSize := 32,
        explored := fun _ _ => false, visible := fun _ _ => false }
      [] [{ pos := ⟨100, 100⟩, team := .nod, health := 500 }] .gdi).visible 3 3
    = true := by
  apply buildings_fold_forces_tile _ _ _
    { pos := ⟨100, 100⟩, team := .nod, health := 500 } 3 3
  · simp
  · norm_num
  · simp only [fogTile]
    norm_num
  · norm_num
  · norm_num

/-- Claim C8 (amended): beyond the radius reveals around friendly units
(150) and buildings (200), the tiles forced visible are those containing a
live building of *either* team among the buildings passed to the update:
the team filter guards only the radius reveal, not the forced-tile write,
so a live enemy building's tile is made visible too. -/
theorem fog_forces_any_live_building_tile
    (fog : Fog) (units buildings : List FogEnt) (team : TeamId) (b : FogEnt)
    (tx ty : ℕ)
    (hmem : b ∈ buildings) (hlive : 0 < b.health)
    (htile : fogTile fog b.pos = ((tx : ℤ), (ty : ℤ)))
    (hx : tx < fog.gw) (hy : ty < fog.gh) :
    (fogUpdateVisibility fog units buildings team).visible tx ty = true := by
  unfold fogUpdateVisibility
  have hdims : ∀ us : List FogEnt, ∀ f : Fog,
      ((us.foldl (fun f1 u => if u.team = team then fogReveal f1 u.pos 150 else f1)
        f).gw = f.gw
      ∧ (us.foldl (fun f1 u => if u.team = team then fogReveal f1 u.pos 150 else f1)
        f).gh = f.gh
      ∧ (us.foldl (fun f1 u => if u.team = team then fogReveal f1 u.pos 150 else f1)
        f).tileSize = f.tileSize) := by
    intro us
    induction us with
    | nil => exact fun f => ⟨rfl, rfl, rfl⟩
    | cons u rest ih =>
      intro f
      simp only [List.foldl_cons]
      rcases ih (if u.team = team then fogReveal f u.pos 150 else f)
        with ⟨h1, h2, h3⟩
      refine ⟨?_, ?_, ?_⟩
      · rw [h1]; split_ifs <;> rfl
      · rw [h2]; split_ifs <;> rfl
      · rw [h3]; split_ifs <;> rfl
  have hd := hdims units { fog with visible := fun _ _ => false }
  exact buildings_fold_forces_tile team buildings _ b tx ty hmem hlive
    (by rw [fogTile_congr _ fog _ (by rw [hd.2.2])]; exact htile)
    (by rw [hd.1]; exact hx) (by rw [hd.2.1]; exact hy)

/-- Witness for C8 (amended): the concrete enemy-building scenario above
satisfies every hypothesis, putting tile (3,3) in the forced-visible set. -/
theorem fog_forces_any_live_building_tile_witness :
    (fogUpdateVisibility
      { gw := 10, gh := 10, tileSize := 32,
        explored := fun _ _ => false, visible := fun _ _ => false }
      [{ pos := ⟨400, 400⟩, team := .gdi, health := 100 }]
      [{ pos := ⟨100, 100⟩, team := .nod, health := 500 }] .gdi).visible 3 3
    = true := by
  apply fog_forces_any_live_building_tile _ _ _ _
    { pos := ⟨100, 100⟩, team := .nod, health := 500 } 3 3
  · simp
  · norm_num
  · simp only [fogTile]
    norm_num
  · norm_num
  · norm_num

/-- Claim C9: `explored` is monotone — once a tile is explored, no
sequence of `_reveal` and `update_visibility` calls ever resets it. -/
theorem fog_explored_monotone (fog : Fog) (ops : List FogOp) (x y : ℕ)
    (h : fog.explored x y = true) :
    (fogApplyOps fog ops).explored x y = true := by
  induction ops generalizing fog with
  | nil => exact h
  | cons op rest ih =>
    cases op with
    | reveal c r => exact ih _ (fogReveal_explored_mono fog c r x y h)
    | updateVis us bs t =>
      refine ih _ ?_
      unfold fogUpdateVisibility
      have hunits : ∀ us1 : List FogEnt, ∀ f : Fog, f.explored x y = true →
          (us1.foldl (fun f1 u => if u.team = t then fogReveal f1 u.pos 150 else f1)
            f).explored x y = true := by
        intro us1
        induction us1 with
        | nil => exact fun f hf => hf
        | cons u rest2 ih2 =>
          intro f hf
          refine ih2 _ ?_
          simp only []
          split_ifs with ht
          · exact fogReveal_explored_mono f u.pos 150 x y hf
          · exact hf
      have hbuild : ∀ bs1 : List FogEnt, ∀ f : Fog, f.explored x y = true →
          (bs1.foldl (fogBuildingStep t) f).explored x y = true := by
        intro bs1
        induction bs1 with
        | nil => exact fun f hf => hf
        | cons b rest2 ih2 =>
          intro f hf
          exact ih2 _ (fogBuildingStep_explored_mono t f b x y hf)
      exact hbuild bs _ (hunits us { fog with visible := fun _ _ => false } h)

/-- Witness for C9: a tile explored at match start stays explored through a
reveal and a full visibility update. -/
theorem fog_explored_monotone_witness :
    (fogApplyOps
      { gw := 10, gh := 10, tileSize := 32,
        explored := fun x y => x = 2 ∧ y = 2, visible := fun _ _ => false }
      [.updateVis [] [{ pos := ⟨100, 100⟩, team := .nod, health := 500 }] .gdi,
       .reveal ⟨50, 50⟩ 150]).explored 2 2 = true :=
  fog_explored_monotone _ _ 2 2 (by simp)

/-- Claim C10: `is_visible` and `is_explored` bounds-check the tile index
and answer `False` for any position whose tile lies outside the grid
(negative coordinates or beyond the map edge); being total functions of
the embedding, they cannot fail. -/
theorem fog_queries_out_of_bounds_false (fog : Fog) (pos : Pt)
    (hoob : ¬ (0 ≤ (fogTile fog pos).1 ∧ (fogTile fog pos).1 < (fog.gw : ℤ)
      ∧ 0 ≤ (fogTile fog pos).2 ∧ (fogTile fog pos).2 < (fog.gh : ℤ))) :
    fogIsVisible fog pos = false ∧ fogIsExplored fog pos = false := by
  unfold fogIsVisible fogIsExplored
  rw [if_neg hoob, if_neg hoob]
  exact ⟨rfl, rfl⟩

/-- Witness for C10: querying at (−5, −5) on a 10×10 grid (tile (−1, −1))
returns `False` from both queries. -/
theorem fog_queries_out_of_bounds_false_witness :
    fogIsVisible
      { gw := 10, gh := 10, tileSize := 32,
        explored := fun _ _ => true, visible := fun _ _ => true }
      ⟨-5, -5⟩ = false
    ∧ fogIsExplored
      { gw := 10, gh := 10, tileSize := 32,
        explored := fun _ _ => true, visible := fun _ _ => true }
      ⟨-5, -5⟩ = false :=
  fog_queries_out_of_bounds_false _ ⟨-5, -5⟩ (by
    simp only [fogTile]
    norm_num)

end CondaRTS
